/-
  Verification of the MQTT-to-Matter bridge's device abstraction and
  synchronization layer (ih8homeassistant).

  Shallow embedding conventions:
  * JavaScript strings are modelled as lists of code points (`JStr := List Nat`);
    `jstr` converts a Lean string literal to this representation.
  * JavaScript numbers are modelled as `Int` where the code only ever holds
    integers (brightness/level clamping), as `Nat` for code points and
    parsed color channels, and as `ℚ` for the RGB/HSV conversions whose
    intermediate values are fractions (the idealization of IEEE floats).
  * Fallible operations return `Option`/`Except`; JS `undefined` is `none`.
  * Stateful handlers are modelled as pure functions from state to
    (new state, list of emitted effects); the effect list records the
    graph-node `set` calls, MQTT publishes and log lines the handler issues.
-/
import Mathlib

namespace IH8

/-- A JavaScript string, as its sequence of code points. -/
abbrev JStr := List Nat

/-- Code-point view of a Lean string literal (all our literals are ASCII). -/
def jstr (s : String) : JStr := s.data.map Char.toNat

/-- ASCII lower-casing of one code point (model of `String.toLowerCase`
restricted to the ASCII strings the bridge manipulates). -/
def lowerChar (c : Nat) : Nat := if 65 ≤ c ∧ c ≤ 90 then c + 32 else c

/-- ASCII lower-casing of a string. -/
def lowerStr (s : JStr) : JStr := s.map lowerChar

/-! ## Brightness converters (src/utils/BrightnessConverter.ts) -/

/-- `mqttToMatterBrightness`: clamp to [0,255], then `Math.min(·, 254)`. -/
def mqttToMatterBrightness (mqttBrightness : Int) : Int :=
  let clamped := max 0 (min 255 mqttBrightness)
  min clamped 254

/-- `matterToMqttBrightness`: `Math.max(0, Math.min(254, matterLevel))`. -/
def matterToMqttBrightness (matterLevel : Int) : Int :=
  max 0 (min 254 matterLevel)

/-- One code point of ASCII whitespace (as skipped by `parseInt`). -/
def isWsChar (c : Nat) : Bool := c = 32 || c = 9 || c = 10 || c = 13

/-- Decimal digit? -/
def isDigitChar (c : Nat) : Bool := 48 ≤ c && c ≤ 57

/-- Model of `parseInt(payload, 10)`: skip leading whitespace, optional
sign, then the longest leading run of decimal digits; `NaN` (here `none`)
when that run is empty.  Trailing garbage is ignored, as in JS. -/
def parseIntBase10 (s : JStr) : Option Int :=
  let s1 := s.dropWhile isWsChar
  let (neg, s2) : Bool × JStr :=
    match s1 with
    | 43 :: t => (false, t)
    | 45 :: t => (true, t)
    | t => (false, t)
  let digits := s2.takeWhile isDigitChar
  if digits = [] then none
  else
    let v : Int := digits.foldl (fun acc d => acc * 10 + (d - 48 : Nat)) 0
    some (if neg then -v else v)

/-- `parseBrightness`: `parseInt(payload, 10)`, `null` if `NaN` or outside
[0,255]. -/
def parseBrightness (payload : JStr) : Option Int :=
  match parseIntBase10 payload with
  | none => none
  | some brightness =>
      if brightness < 0 ∨ brightness > 255 then none else some brightness

/-! ## Color converters (src/utils/ColorConverter.ts) -/

/-- RGB triple, channels 0-255. -/
structure RGB where
  r : Nat
  g : Nat
  b : Nat
deriving DecidableEq, Repr

/-- HSV triple in Matter's 0-254 range. -/
structure HSV where
  hue : Nat
  saturation : Nat
  value : Nat
deriving DecidableEq, Repr

/-- Hex digit (matches the character class of the `RRGGBB` regex). -/
def isHexDigit (c : Nat) : Bool :=
  (48 ≤ c && c ≤ 57) || (97 ≤ c && c ≤ 102) || (65 ≤ c && c ≤ 70)

/-- Value of one hex digit (what `parseInt(_, 16)` assigns to it). -/
def hexVal (c : Nat) : Nat :=
  if c ≤ 57 then c - 48 else if 97 ≤ c then c - 87 else c - 55

/-- Lower-case hex digit for a value < 16 (as `Number.toString(16)` emits). -/
def hexChar (d : Nat) : Nat := if d < 10 then 48 + d else 87 + d

/-- The prefix-stripping step of `parseRgbHex`: strip `pfx` when it is
given, non-empty (JS truthiness) and the string starts with it. -/
def stripPfx (s : JStr) (pfx : Option JStr) : JStr :=
  match pfx with
  | some p => if p ≠ [] ∧ p.isPrefixOf s then s.drop p.length else s
  | none => s

/-- The regex-and-parse step of `parseRgbHex`: require
`^([0-9a-fA-F]{2})([0-9a-fA-F]{2})([0-9a-fA-F]{2})$` and parse each
channel pair base 16. -/
def parseHex6 (hex : JStr) : Option RGB :=
  match hex with
  | [c1, c2, c3, c4, c5, c6] =>
      if isHexDigit c1 && isHexDigit c2 && isHexDigit c3 &&
         isHexDigit c4 && isHexDigit c5 && isHexDigit c6 then
        some ⟨hexVal c1 * 16 + hexVal c2,
              hexVal c3 * 16 + hexVal c4,
              hexVal c5 * 16 + hexVal c6⟩
      else none
  | _ => none

/-- `parseRgbHex(rgbHex, prefix)`: strip the prefix, then match and parse
the six hex digits. -/
def parseRgbHex (rgbHex : JStr) (pfx : Option JStr) : Option RGB :=
  parseHex6 (stripPfx rgbHex pfx)

/-- Digit extraction for `toHexRep`; the fuel (an upper bound on the digit
count) makes the recursion structural. -/
def toHexRepAux : Nat → Nat → JStr
  | 0, _ => []
  | fuel + 1, n =>
    if n < 16 then [hexChar n]
    else toHexRepAux fuel (n / 16) ++ [hexChar (n % 16)]

/-- Hex representation of a natural number (`Number.toString(16)`,
lower-case, no leading zeros beyond the number itself). -/
def toHexRep (n : Nat) : JStr := toHexRepAux (n + 1) n

/-- `padStart(2, "0")`. -/
def padStart2 (s : JStr) : JStr :=
  if s.length < 2 then List.replicate (2 - s.length) 48 ++ s else s

/-- One channel of `rgbToHex`: `Math.round(ch).toString(16).padStart(2, "0")`
(`Math.round` is the identity on the naturals our channels are). -/
def toHexByte (n : Nat) : JStr := padStart2 (toHexRep n)

/-- `rgbToHex(rgb, prefix)`: concatenated channel bytes, prefixed when the
prefix is given and non-empty (JS truthiness of `prefix ? prefix + hex : hex`). -/
def rgbToHex (rgb : RGB) (pfx : Option JStr) : JStr :=
  let hex := toHexByte rgb.r ++ toHexByte rgb.g ++ toHexByte rgb.b
  match pfx with
  | some p => if p ≠ [] then p ++ hex else hex
  | none => hex

/-- `Math.round` for nonnegative rationals: `⌊q + 1/2⌋`. -/
def jsRound (q : ℚ) : ℤ := ⌊q + 1 / 2⌋

/-- `rgbToHsv`: normalize channels to [0,1], standard max/min/delta
formulas, then scale to Matter's 0-254 range with `Math.round`. -/
def rgbToHsv (rgb : RGB) : HSV :=
  let r : ℚ := rgb.r / 255
  let g : ℚ := rgb.g / 255
  let b : ℚ := rgb.b / 255
  let mx := max r (max g b)
  let mn := min r (min g b)
  let delta := mx - mn
  let hue : ℚ :=
    if delta ≠ 0 then
      if mx = r then ((g - b) / delta + (if g < b then 6 else 0)) / 6
      else if mx = g then ((b - r) / delta + 2) / 6
      else ((r - g) / delta + 4) / 6
    else 0
  let saturation : ℚ := if mx = 0 then 0 else delta / mx
  let value : ℚ := mx
  ⟨(jsRound (hue * 254)).toNat,
   (jsRound (saturation * 254)).toNat,
   (jsRound (value * 254)).toNat⟩

/-- `hsvToRgb`: Matter 0-254 range to [0,1], sector decomposition, back to
0-255 channels with `Math.round`.  The `switch (i % 6)` leaves the channels
at their initial 0 on an unmatched case, as in the source. -/
def hsvToRgb (hsv : HSV) : RGB :=
  let h : ℚ := hsv.hue / 254
  let s : ℚ := hsv.saturation / 254
  let v : ℚ := hsv.value / 254
  let i : ℤ := ⌊h * 6⌋
  let f : ℚ := h * 6 - i
  let p := v * (1 - s)
  let q := v * (1 - f * s)
  let t := v * (1 - (1 - f) * s)
  let rgbq : ℚ × ℚ × ℚ :=
    if i % 6 = 0 then (v, t, p)
    else if i % 6 = 1 then (q, v, p)
    else if i % 6 = 2 then (p, v, t)
    else if i % 6 = 3 then (p, q, v)
    else if i % 6 = 4 then (t, p, v)
    else if i % 6 = 5 then (v, p, q)
    else (0, 0, 0)
  ⟨(jsRound (rgbq.1 * 255)).toNat,
   (jsRound (rgbq.2.1 * 255)).toNat,
   (jsRound (rgbq.2.2 * 255)).toNat⟩

/-- `hexToHsv`: `parseRgbHex` then `rgbToHsv`. -/
def hexToHsv (rgbHex : JStr) (pfx : Option JStr) : Option HSV :=
  (parseRgbHex rgbHex pfx).map rgbToHsv

/-- `hsvToHex`: `hsvToRgb` then `rgbToHex`. -/
def hsvToHex (hsv : HSV) (pfx : Option JStr) : JStr :=
  rgbToHex (hsvToRgb hsv) pfx

/-! ## Device metadata (src/mqtt/devices/metadata.ts) -/

/-- Declared type of a configuration option (`"string" | "number" | "boolean"`). -/
inductive OptType where
  | string
  | number
  | boolean
deriving DecidableEq, Repr

/-- A scalar option value as it comes out of the TOML config. -/
inductive OptValue where
  | str (s : String)
  | num (n : Int)
  | bool (b : Bool)
deriving DecidableEq, Repr

/-- The dynamic type of an option value. -/
def OptValue.typeOf : OptValue → OptType
  | .str _ => .string
  | .num _ => .number
  | .bool _ => .boolean

/-- One entry of an `OptionSchema` (the description field is
documentation-only and is not modelled). -/
structure OptionDef where
  type : OptType
  default : OptValue
deriving DecidableEq, Repr

/-- First-match association-list lookup (JS object property access; the
TOML loader never produces duplicate keys). -/
def optLookup (l : List (String × OptValue)) (k : String) : Option OptValue :=
  match l with
  | [] => none
  | (k0, v) :: t => if k0 = k then some v else optLookup t k

/-- Lookup in a role → topic-string mapping. -/
def topicLookup (l : List (String × String)) (k : String) : Option String :=
  match l with
  | [] => none
  | (k0, v) :: t => if k0 = k then some v else topicLookup t k

/-- A device configuration as handed to the descriptor validators.
`none` models a JS `undefined` field. -/
structure DevConfig where
  name : Option String
  type : Option String
  topics : List (String × String)
  options : List (String × OptValue)
deriving DecidableEq, Repr

/-- JS truthiness test `!config.name` (undefined or empty string). -/
def nameFalsy (cfg : DevConfig) : Bool :=
  match cfg.name with
  | none => true
  | some s => s = ""

/-- `config.name || "unknown"` as used for the topic-error device label. -/
def displayName (cfg : DevConfig) : String :=
  match cfg.name with
  | none => "unknown"
  | some s => if s = "" then "unknown" else s

/-- How the unknown/invalid `config.type` is printed in error messages
(`undefined` interpolates to the string "undefined"). -/
def typeShow (cfg : DevConfig) : String :=
  match cfg.type with
  | none => "undefined"
  | some s => s

/-- Truthiness of `topics[topicKey]`: the role is missing when the topic
mapping has no entry for it or maps it to the empty string. -/
def topicMissing (cfg : DevConfig) (role : String) : Bool :=
  match topicLookup cfg.topics role with
  | none => true
  | some s => s = ""

/-- `validateTopics`: one `Missing required topic` error per required role
whose topic is absent or empty, in schema order (the source pushes into an
accumulator while iterating `schema.required`; filtering then mapping
produces the same list). -/
def validateTopics (cfg : DevConfig) (required : List String)
    (deviceName : String) : List String :=
  (required.filter (fun role => topicMissing cfg role)).map
    (fun role => "[" ++ deviceName ++ "] Missing required topic: " ++ role)

/-- `applyOptionDefaults`: copy the configured options, then fill in the
schema default for every key the caller left `undefined`.  The source
iterates `Object.entries(schema)` mutating a copy; appending the missing
bindings in schema order gives the same mapping. -/
def applyOptionDefaults (opts : List (String × OptValue))
    (schema : List (String × OptionDef)) : List (String × OptValue) :=
  schema.foldl
    (fun acc kd =>
      if optLookup acc kd.1 = none then acc ++ [(kd.1, kd.2.default)] else acc)
    opts

/-- `createValidationResult`: valid iff no errors were accumulated. -/
structure ValidationResult where
  valid : Bool
  errors : List String
deriving DecidableEq, Repr

/-- A device type descriptor: the data every concrete `static metadata`
record carries.  `className` is the implementation-class name used in the
`Invalid type for …` message; `validTypes` the type names the descriptor's
type check accepts (two for OnOffDevice, one otherwise). -/
structure Descriptor where
  typeName : String
  className : String
  validTypes : List String
  capabilities : List String
  requiredTopics : List String
  optionSchema : List (String × OptionDef)
deriving DecidableEq, Repr

/-- The type check each `validateConfig` performs.  OnOffDevice writes
`!config.type || (type !== A && type !== B)`, the others `type !== T`;
both are "the configured type is one of the descriptor's valid names"
(an undefined or empty type is never a valid name). -/
def typeOk (d : Descriptor) (cfg : DevConfig) : Bool :=
  match cfg.type with
  | none => false
  | some t => t ∈ d.validTypes

/-- The shared body of every descriptor's `validateConfig`: accumulate the
name error, the type error and the missing-topic errors, unconditionally
overwrite `config.options` with the default-completed options, and return
`createValidationResult(errors)` together with the mutated config. -/
def genValidateConfig (d : Descriptor) (cfg : DevConfig) :
    ValidationResult × DevConfig :=
  let e1 := if nameFalsy cfg then ["Missing device name"] else []
  let e2 :=
    if typeOk d cfg then []
    else ["Invalid type for " ++ d.className ++ ": " ++ typeShow cfg]
  let e3 := validateTopics cfg d.requiredTopics (displayName cfg)
  let errors := e1 ++ e2 ++ e3
  let cfg2 := { cfg with options := applyOptionDefaults cfg.options d.optionSchema }
  (⟨errors.isEmpty, errors⟩, cfg2)

/-- The four common string options shared by the on/off-style devices. -/
def onOffOptionSchema : List (String × OptionDef) :=
  [("onValue", ⟨.string, .str "ON"⟩),
   ("offValue", ⟨.string, .str "OFF"⟩),
   ("onlineValue", ⟨.string, .str "Online"⟩),
   ("offlineValue", ⟨.string, .str "Offline"⟩)]

/-- `OnOffDevice.metadata` (registered for both on/off type names). -/
def onOffMeta : Descriptor where
  typeName := "OnOffDevice"
  className := "OnOffDevice"
  validTypes := ["OnOffPlugInUnitDevice", "OnOffLightDevice"]
  capabilities := ["availability", "onoff"]
  requiredTopics := ["getOnline", "getOn", "setOn"]
  optionSchema := onOffOptionSchema

/-- `DimmableDevice.metadata`. -/
def dimmableMeta : Descriptor where
  typeName := "DimmableDevice"
  className := "DimmableDevice"
  validTypes := ["DimmableLightDevice"]
  capabilities := ["availability", "onoff", "dimming"]
  requiredTopics := ["getOnline", "getOn", "setOn", "getBrightness", "setBrightness"]
  optionSchema := onOffOptionSchema

/-- `ColorDevice.metadata`. -/
def colorMeta : Descriptor where
  typeName := "ColorDevice"
  className := "ColorDevice"
  validTypes := ["ExtendedColorLightDevice"]
  capabilities := ["availability", "onoff", "dimming", "color"]
  requiredTopics :=
    ["getOnline", "getOn", "setOn", "getBrightness", "setBrightness", "getRGB", "setRGB"]
  optionSchema :=
    onOffOptionSchema ++
    [("hex", ⟨.boolean, .bool false⟩),
     ("hexPrefix", ⟨.string, .str "#"⟩)]

/-- `MomentarySwitchDevice.metadata`. -/
def momentarySwitchMeta : Descriptor where
  typeName := "MomentarySwitchDevice"
  className := "MomentarySwitchDevice"
  validTypes := ["GenericSwitchDevice"]
  capabilities := ["availability", "switch"]
  requiredTopics := ["getOnline", "setCommand"]
  optionSchema :=
    [("onlineValue", ⟨.string, .str "Online"⟩),
     ("offlineValue", ⟨.string, .str "Offline"⟩),
     ("commandValue", ⟨.string, .str ""⟩)]

/-- `TVDevice.metadata`. -/
def tvMeta : Descriptor where
  typeName := "TVDevice"
  className := "TVDevice"
  validTypes := ["TVDevice"]
  capabilities := ["availability", "onoff"]
  requiredTopics := ["getOnline", "getState", "setPower"]
  optionSchema := onOffOptionSchema

/-- The five concrete descriptors of the repository. -/
def allDescriptors : List Descriptor :=
  [onOffMeta, dimmableMeta, colorMeta, momentarySwitchMeta, tvMeta]

/-! ## Device registry (src/mqtt/devices/registry.ts) -/

/-- The registry's backing map, as an insertion-ordered association list
(keys are unique by construction: `register` refuses duplicates). -/
abbrev Registry := List (String × Descriptor)

/-- First-match lookup in the registry (JS `Map.get`). -/
def regLookup (reg : Registry) (k : String) : Option Descriptor :=
  match reg with
  | [] => none
  | (k0, v) :: t => if k0 = k then some v else regLookup t k

/-- `DeviceRegistry.register`: throws on a duplicate type name, otherwise
appends the entry. -/
def register (reg : Registry) (typeName : String) (d : Descriptor) :
    Except String Registry :=
  if (regLookup reg typeName).isSome then
    .error ("Device type already registered: " ++ typeName)
  else
    .ok (reg ++ [(typeName, d)])

/-- The registration sequence run by importing `devices/index.ts`. -/
def registerAll : Except String Registry := do
  let r ← register [] "OnOffPlugInUnitDevice" onOffMeta
  let r ← register r "OnOffLightDevice" onOffMeta
  let r ← register r "DimmableLightDevice" dimmableMeta
  let r ← register r "ExtendedColorLightDevice" colorMeta
  let r ← register r "GenericSwitchDevice" momentarySwitchMeta
  let r ← register r "TVDevice" tvMeta
  return r

/-- The populated registry (the registration sequence succeeds; see
`registerAll_ok`). -/
def builtRegistry : Registry :=
  [("OnOffPlugInUnitDevice", onOffMeta),
   ("OnOffLightDevice", onOffMeta),
   ("DimmableLightDevice", dimmableMeta),
   ("ExtendedColorLightDevice", colorMeta),
   ("GenericSwitchDevice", momentarySwitchMeta),
   ("TVDevice", tvMeta)]

/-- The startup registrations all succeed and produce `builtRegistry`. -/
theorem registerAll_ok : registerAll = .ok builtRegistry := rfl

/-- `DeviceRegistry.getRegisteredTypes()`: key list in insertion order. -/
def getRegisteredTypes (reg : Registry) : List String := reg.map Prod.fst

/-- `DeviceRegistry.validateConfig`: resolve the metadata by `config.type`;
a missing descriptor yields the single `Unknown device type` error,
otherwise delegate to the descriptor's `validateConfig`. -/
def registryValidateConfig (reg : Registry) (cfg : DevConfig) :
    ValidationResult × DevConfig :=
  match cfg.type with
  | none => (⟨false, ["Unknown device type: " ++ typeShow cfg]⟩, cfg)
  | some t =>
    match regLookup reg t with
    | none => (⟨false, ["Unknown device type: " ++ typeShow cfg]⟩, cfg)
    | some d => genValidateConfig d cfg

/-- A constructed synchronization instance: the resolved descriptor bound
to its configuration (graph node and MQTT client are opaque at this
boundary). -/
structure DeviceInstance where
  descriptor : Descriptor
  config : DevConfig
deriving DecidableEq, Repr

/-- `DeviceRegistry.createDevice`: resolve the entry by `config.type` and
construct the instance; throw `Unknown device type: … . Available types: …`
when absent. -/
def registryCreateDevice (reg : Registry) (cfg : DevConfig) :
    Except String DeviceInstance :=
  let found :=
    match cfg.type with
    | none => none
    | some t => regLookup reg t
  match found with
  | none =>
    .error ("Unknown device type: " ++ typeShow cfg ++ ". Available types: " ++
      String.intercalate ", " (getRegisteredTypes reg))
  | some d => .ok ⟨d, cfg⟩

/-! ## TV device state handler (src/mqtt/devices/TVDevice.ts)

`handleStateUpdate` runs the payload through `JSON.parse` and reads the
`POWER` property.  `jsonParseObj` models `JSON.parse` restricted to the
shape these STATE payloads have — a single flat object whose keys and
values are escape-free strings; every other input is a parse failure, as
it is for `JSON.parse` on the non-JSON payloads the claims exercise. -/

/-- JSON insignificant whitespace. -/
def skipWs (s : JStr) : JStr := s.dropWhile isWsChar

/-- Body of a JSON string literal up to the closing quote; fails on
escapes (unused by the modelled payloads) and unterminated strings. -/
def jsonStringBody (s : JStr) : Option (JStr × JStr) :=
  match s with
  | [] => none
  | c :: t =>
    if c = 34 then some ([], t)
    else if c = 92 then none
    else
      match jsonStringBody t with
      | some (body, rest) => some (c :: body, rest)
      | none => none

/-- A JSON string literal: opening quote then its body. -/
def jsonString (s : JStr) : Option (JStr × JStr) :=
  match s with
  | 34 :: t => jsonStringBody t
  | _ => none

/-- One `"key": "value"` member, surrounding whitespace consumed. -/
def jsonMember (s : JStr) : Option ((JStr × JStr) × JStr) :=
  match jsonString (skipWs s) with
  | none => none
  | some (k, r1) =>
    match skipWs r1 with
    | 58 :: r2 =>
      match jsonString (skipWs r2) with
      | none => none
      | some (v, r3) => some ((k, v), r3)
    | _ => none

/-- Comma-separated member list; the fuel is an upper bound on the member
count (one unit per parsed member). -/
def jsonMembers : Nat → JStr → Option (List (JStr × JStr) × JStr)
  | 0, _ => none
  | fuel + 1, s =>
    match jsonMember s with
    | none => none
    | some (kv, r) =>
      match skipWs r with
      | 44 :: r2 =>
        match jsonMembers fuel r2 with
        | some (l, r3) => some (kv :: l, r3)
        | none => none
      | r1 => some ([kv], r1)

/-- `JSON.parse` for a flat string-valued object (fails, like `JSON.parse`,
on anything else — in particular on payloads that are not JSON at all). -/
def jsonParseObj (s : JStr) : Option (List (JStr × JStr)) :=
  match skipWs s with
  | 123 :: r =>
    match skipWs r with
    | 125 :: r2 => if skipWs r2 = [] then some [] else none
    | r1 =>
      match jsonMembers (r1.length + 1) r1 with
      | some (l, 125 :: r2) => if skipWs r2 = [] then some l else none
      | _ => none
  | _ => none

/-- Property access on the parsed object; with duplicate keys the last
binding wins, as for a JS object literal. -/
def jsonGet (l : List (JStr × JStr)) (k : JStr) : Option JStr :=
  match l with
  | [] => none
  | (k0, v) :: t =>
    match jsonGet t k with
    | some v2 => some v2
    | none => if k0 = k then some v else none

/-- The graph-node mutations and log lines a TV inbound handler can emit. -/
inductive TVEffect where
  | setReachable (b : Bool)
  | setOnOff (b : Bool)
  | logParseError
deriving DecidableEq, Repr

/-- The TV options relevant to its handlers (strings at payload level). -/
structure TVOptions where
  onValue : JStr
  offValue : JStr
  onlineValue : JStr
  offlineValue : JStr
deriving DecidableEq, Repr

/-- The schema defaults of `TVDevice.metadata.optionSchema`. -/
def defaultTVOptions : TVOptions where
  onValue := jstr "ON"
  offValue := jstr "OFF"
  onlineValue := jstr "Online"
  offlineValue := jstr "Offline"

/-- `TVDevice.handleStateUpdate`: `JSON.parse` the payload inside a
try/catch — a parse failure is logged and nothing is mutated; on success,
set `onOff` to `state.POWER === onValue` when a `POWER` property exists,
and silently ignore everything else (including unrecognized fields). -/
def tvHandleStateUpdate (opts : TVOptions) (message : JStr) : List TVEffect :=
  match jsonParseObj message with
  | none => [.logParseError]
  | some state =>
    match jsonGet state (jstr "POWER") with
    | some v => [.setOnOff (v = opts.onValue)]
    | none => []

/-- Replay of the emitted effects against the graph node's `onOff`
attribute: only a `setOnOff` effect changes it. -/
def applyTVEffects (effs : List TVEffect) (onOff : Bool) : Bool :=
  effs.foldl
    (fun acc e =>
      match e with
      | .setOnOff v => v
      | _ => acc)
    onOff

/-! ## Color device (src/mqtt/devices/ColorDevice.ts) -/

/-- The topic strings a color device is configured with. -/
structure ColorTopics where
  getOnline : String
  getOn : String
  getBrightness : String
  getRGB : String
deriving DecidableEq, Repr

/-- The color device options used by its handlers. -/
structure ColorOptions where
  onValue : JStr
  offValue : JStr
  onlineValue : JStr
  offlineValue : JStr
  hex : Bool
  hexPfx : JStr
deriving DecidableEq, Repr

/-- The prefix handed to the color converters:
`this.config.options.hex ? this.config.options.hexPrefix : undefined`. -/
def rgbPfx (opts : ColorOptions) : Option JStr :=
  if opts.hex then some opts.hexPfx else none

/-- The locally cached hue/saturation a `ColorDevice` instance owns. -/
structure ColorCache where
  currentHue : Nat
  currentSaturation : Nat
deriving DecidableEq, Repr

/-- Everything an inbound color-device handler can do to the outside
world.  `setColor` is the color-cluster mutation the code never performs;
it is included so its absence is expressible. -/
inductive InEffect where
  | setReachable (b : Bool)
  | setOnOff (b : Bool)
  | setLevel (lvl : Int)
  | setColor (hue saturation : Nat)
  | logError
  | logInfo
deriving DecidableEq, Repr

/-- `ColorDevice.handleMqttMessage` with its four topic branches
(`handleAvailability`, `handleOnOffState`, `handleBrightnessState`,
`handleRGBState`).  `handleRGBState` parses via `hexToHsv`, logs, and on
success only updates the cached hue/saturation — the `set` it does not
issue would be the `setColor` effect. -/
def colorHandleMqttMessage (topics : ColorTopics) (opts : ColorOptions)
    (cache : ColorCache) (topic : String) (message : JStr) :
    ColorCache × List InEffect :=
  if topic = topics.getOnline then
    (cache, [.setReachable (message = opts.onlineValue)])
  else if topic = topics.getOn then
    (cache, [.setOnOff (message = opts.onValue)])
  else if topic = topics.getBrightness then
    match parseBrightness message with
    | none => (cache, [.logError])
    | some brightness => (cache, [.setLevel (mqttToMatterBrightness brightness)])
  else if topic = topics.getRGB then
    match hexToHsv message (rgbPfx opts) with
    | none => (cache, [.logError])
    | some hsv =>
      ({ currentHue := hsv.hue, currentSaturation := hsv.saturation }, [.logInfo])
  else
    (cache, [])

/-! ### Matter-side event machine with the debounced RGB publish

The graph-side handlers registered in `setupMatterEventHandlers` plus the
debounce timer are modelled as a state machine over discrete time.  The
single pending `setTimeout` handle is a deadline; `clearTimeout` followed
by `setTimeout(…, 50)` is the overwrite `timer := some (now + 50)`.  In
the single-threaded event loop a timer whose deadline has passed runs
before a later-arriving event, so each step first fires a due timer. -/

/-- An outbound MQTT publish of the color device. -/
inductive OutMsg where
  | rgb (payload : JStr)
  | brightness (payload : Int)
  | onoff (payload : JStr)
deriving DecidableEq, Repr

/-- Is this publish on the `setRGB` topic? -/
def OutMsg.isRgb : OutMsg → Bool
  | .rgb _ => true
  | _ => false

/-- Color device state: cached hue/saturation, the graph node's current
level attribute, the pending debounce deadline, and the publishes emitted
so far (oldest first). -/
structure CDev where
  hue : Nat
  sat : Nat
  level : Nat
  timer : Option Nat
  out : List OutMsg
deriving DecidableEq, Repr

/-- The graph change events the handlers subscribe to. -/
inductive MEvent where
  | hueChanged (v : Nat)
  | satChanged (v : Nat)
  | levelChanged (v : Nat)
  | onOffChanged (b : Bool)
deriving DecidableEq, Repr

/-- `publishRGB`: read the *current* level attribute (defaulting to 254
were it undefined; the modelled node always has one), encode
`hsvToHex({hue, saturation, value})` and publish it. -/
def publishRGB (opts : ColorOptions) (st : CDev) : CDev :=
  { st with
    out := st.out ++
      [.rgb (hsvToHex ⟨st.hue, st.sat, st.level⟩ (rgbPfx opts))] }

/-- `debouncedPublishRGB` at time `t`: cancel any pending timer and
schedule the publish 50 time-units out. -/
def debouncedPublishRGB (t : Nat) (st : CDev) : CDev :=
  { st with timer := some (t + 50) }

/-- Fire the pending debounce timer if its deadline is due at time `t`. -/
def fireIfDue (opts : ColorOptions) (t : Nat) (st : CDev) : CDev :=
  match st.timer with
  | some d => if d ≤ t then { publishRGB opts st with timer := none } else st
  | none => st

/-- Handle one graph event at time `t` (after firing a due timer):
* `currentHue$Changed` / `currentSaturation$Changed` update the cache and
  debounce-schedule only when the delivered value differs from the cache;
* `currentLevel$Changed` records the node's new level, publishes the
  mapped brightness, and debounce-schedules the RGB publish;
* `onOff$Changed` publishes the on/off string. -/
def cdStep (opts : ColorOptions) (ev : Nat × MEvent) (st0 : CDev) : CDev :=
  let st := fireIfDue opts ev.1 st0
  match ev.2 with
  | .hueChanged v =>
    if v ≠ st.hue then debouncedPublishRGB ev.1 { st with hue := v } else st
  | .satChanged v =>
    if v ≠ st.sat then debouncedPublishRGB ev.1 { st with sat := v } else st
  | .levelChanged v =>
    let st1 :=
      { st with
        level := v
        out := st.out ++ [.brightness (matterToMqttBrightness v)] }
    debouncedPublishRGB ev.1 st1
  | .onOffChanged b =>
    { st with out := st.out ++ [.onoff (if b then opts.onValue else opts.offValue)] }

/-- Run a time-ordered event trace. -/
def runEvents (opts : ColorOptions) (evs : List (Nat × MEvent)) (st : CDev) : CDev :=
  evs.foldl (fun s ev => cdStep opts ev s) st

/-- Let a still-pending debounce timer fire after the trace ends. -/
def flushTimer (opts : ColorOptions) (st : CDev) : CDev :=
  match st.timer with
  | some _ => { publishRGB opts st with timer := none }
  | none => st

/-- Run a trace to quiescence: process every event, then the pending timer. -/
def runToQuiescence (opts : ColorOptions) (evs : List (Nat × MEvent)) (st : CDev) : CDev :=
  flushTimer opts (runEvents opts evs st)

/-- The RGB publishes among the emitted messages. -/
def rgbOut (st : CDev) : List OutMsg := st.out.filter OutMsg.isRgb

/-! ## Auxiliary notions used by the claims -/

/-- Substring test (does `needle` occur contiguously in `hay`?). -/
def containsStr (needle hay : List Char) : Bool :=
  match hay with
  | [] => needle.isEmpty
  | _ :: t => needle.isPrefixOf hay || containsStr needle t

/-- Exactly six hex digits — the shape `parseRgbHex`'s regex accepts. -/
def validHex6 (l : JStr) : Prop := l.length = 6 ∧ ∀ c ∈ l, isHexDigit c = true

instance (l : JStr) : Decidable (validHex6 l) := by
  unfold validHex6; infer_instance

/-! ## Helper lemmas -/

theorem containsStr_append_right {n : List Char} (x : List Char) {y : List Char}
    (h : containsStr n y = true) : containsStr n (x ++ y) = true := by
  induction x with
  | nil => simpa using h
  | cons a t ih => simp [containsStr, ih]

theorem isPrefixOf_append_self (p d : List Nat) : p.isPrefixOf (p ++ d) = true := by
  induction p with
  | nil => simp [List.isPrefixOf]
  | cons a t ih => simp [List.isPrefixOf, ih]

/-- Stripping the configured prefix from a string that carries it. -/
theorem stripPfx_append (pfx : Option JStr) (d : JStr) :
    stripPfx (pfx.getD [] ++ d) pfx = d := by
  match pfx with
  | none => simp [stripPfx]
  | some p =>
    by_cases hp : p = []
    · simp [stripPfx, hp]
    · simp [stripPfx, hp, isPrefixOf_append_self, List.drop_left]

theorem isHexDigit_lt (c : Nat) (h : isHexDigit c = true) : c < 103 := by
  simp only [isHexDigit, Bool.or_eq_true, Bool.and_eq_true, decide_eq_true_eq] at h
  omega

theorem hexVal_lt_aux : ∀ c < 103, isHexDigit c = true → hexVal c < 16 := by decide

theorem hexVal_lt (c : Nat) (h : isHexDigit c = true) : hexVal c < 16 :=
  hexVal_lt_aux c (isHexDigit_lt c h) h

theorem hexChar_hexVal_aux :
    ∀ c < 103, isHexDigit c = true → hexChar (hexVal c) = lowerChar c := by decide

/-- Re-encoding the value of a hex digit yields its lower-cased form. -/
theorem hexChar_hexVal (c : Nat) (h : isHexDigit c = true) :
    hexChar (hexVal c) = lowerChar c :=
  hexChar_hexVal_aux c (isHexDigit_lt c h) h

theorem toHexRepAux_small (fuel a : Nat) (hf : 0 < fuel) (ha : a < 16) :
    toHexRepAux fuel a = [hexChar a] := by
  cases fuel with
  | zero => omega
  | succ f => simp [toHexRepAux, ha]

/-- The two-digit hex encoding of a byte given by its two nibbles. -/
theorem toHexByte_pair (a b : Nat) (ha : a < 16) (hb : b < 16) :
    toHexByte (a * 16 + b) = [hexChar a, hexChar b] := by
  by_cases h0 : a = 0
  · subst h0
    simp only [Nat.zero_mul, Nat.zero_add]
    rw [toHexByte, toHexRep, toHexRepAux_small _ _ (by omega) hb]
    simp [padStart2, hexChar]
  · have h16 : ¬ (a * 16 + b < 16) := by omega
    have hdiv : (a * 16 + b) / 16 = a := by omega
    have hmod : (a * 16 + b) % 16 = b := by omega
    rw [toHexByte, toHexRep, toHexRepAux, if_neg h16, hdiv, hmod,
      toHexRepAux_small _ _ (by omega) ha]
    simp [padStart2]

theorem lowerChar_idem (c : Nat) : lowerChar (lowerChar c) = lowerChar c := by
  unfold lowerChar
  split_ifs <;> omega

theorem parseHex6_none_iff (l : JStr) : parseHex6 l = none ↔ ¬ validHex6 l := by
  rcases l with _ | ⟨c1, _ | ⟨c2, _ | ⟨c3, _ | ⟨c4, _ | ⟨c5, _ | ⟨c6, _ | ⟨c7, t⟩⟩⟩⟩⟩⟩⟩ <;>
    simp [parseHex6, validHex6]

theorem parseHex6_valid (c1 c2 c3 c4 c5 c6 : Nat)
    (h1 : isHexDigit c1 = true) (h2 : isHexDigit c2 = true)
    (h3 : isHexDigit c3 = true) (h4 : isHexDigit c4 = true)
    (h5 : isHexDigit c5 = true) (h6 : isHexDigit c6 = true) :
    parseHex6 [c1, c2, c3, c4, c5, c6] =
      some ⟨hexVal c1 * 16 + hexVal c2,
            hexVal c3 * 16 + hexVal c4,
            hexVal c5 * 16 + hexVal c6⟩ := by
  simp [parseHex6, h1, h2, h3, h4, h5, h6]

theorem optLookup_append_some {l : List (String × OptValue)} {k : String}
    {v : OptValue} (h : optLookup l k = some v) (m : List (String × OptValue)) :
    optLookup (l ++ m) k = some v := by
  induction l with
  | nil => simp [optLookup] at h
  | cons a t ih =>
    rcases a with ⟨k0, v0⟩
    by_cases hk : k0 = k <;> simp_all [optLookup]

theorem optLookup_append_none {l : List (String × OptValue)} {k : String}
    (h : optLookup l k = none) (m : List (String × OptValue)) :
    optLookup (l ++ m) k = optLookup m k := by
  induction l with
  | nil => simp
  | cons a t ih =>
    rcases a with ⟨k0, v0⟩
    by_cases hk : k0 = k <;> simp_all [optLookup]

theorem applyOptionDefaults_cons (acc : List (String × OptValue))
    (kd : String × OptionDef) (t : List (String × OptionDef)) :
    applyOptionDefaults acc (kd :: t) =
      applyOptionDefaults
        (if optLookup acc kd.1 = none then acc ++ [(kd.1, kd.2.default)] else acc)
        t := by
  simp [applyOptionDefaults]

/-- Filling in defaults never overwrites a binding the caller supplied. -/
theorem applyOptionDefaults_preserve (schema : List (String × OptionDef)) :
    ∀ (acc : List (String × OptValue)) (k : String) (v : OptValue),
      optLookup acc k = some v →
      optLookup (applyOptionDefaults acc schema) k = some v := by
  induction schema with
  | nil => intro acc k v h; simpa [applyOptionDefaults] using h
  | cons kd t ih =>
    intro acc k v h
    rw [applyOptionDefaults_cons]
    by_cases h0 : optLookup acc kd.1 = none
    · rw [if_pos h0]
      exact ih _ _ _ (optLookup_append_some h _)
    · rw [if_neg h0]
      exact ih _ _ _ h

/-- After filling in defaults, every schema key is bound. -/
theorem applyOptionDefaults_populates (schema : List (String × OptionDef)) :
    ∀ (acc : List (String × OptValue)) (kd : String × OptionDef), kd ∈ schema →
      ∃ v, optLookup (applyOptionDefaults acc schema) kd.1 = some v := by
  induction schema with
  | nil => intro acc kd h; simp at h
  | cons kd0 t ih =>
    intro acc kd hmem
    rw [applyOptionDefaults_cons]
    rcases List.mem_cons.mp hmem with rfl | hkd
    · by_cases h0 : optLookup acc kd.1 = none
      · rw [if_pos h0]
        refine ⟨kd.2.default, applyOptionDefaults_preserve t _ _ _ ?_⟩
        rw [optLookup_append_none h0]
        simp [optLookup]
      · rw [if_neg h0]
        rcases Option.ne_none_iff_exists.mp h0 with ⟨v, hv⟩
        exact ⟨v, applyOptionDefaults_preserve t _ _ _ hv.symm⟩
    · exact ih _ _ hkd

/-- A key the caller omitted ends up bound to its schema default (schema
keys are distinct for every registered descriptor). -/
theorem applyOptionDefaults_default (schema : List (String × OptionDef)) :
    ∀ (acc : List (String × OptValue)) (kd : String × OptionDef),
      (schema.map Prod.fst).Nodup → kd ∈ schema → optLookup acc kd.1 = none →
      optLookup (applyOptionDefaults acc schema) kd.1 = some kd.2.default := by
  induction schema with
  | nil => intro acc kd _ h; simp at h
  | cons kd0 t ih =>
    intro acc kd hnd hmem habs
    have hnd2 : kd0.1 ∉ t.map Prod.fst ∧ (t.map Prod.fst).Nodup := by
      rw [List.map_cons, List.nodup_cons] at hnd
      exact hnd
    rw [applyOptionDefaults_cons]
    rcases List.mem_cons.mp hmem with rfl | hkd
    · rw [if_pos habs]
      refine applyOptionDefaults_preserve t _ _ _ ?_
      rw [optLookup_append_none habs]
      simp [optLookup]
    · have hne : kd0.1 ≠ kd.1 := by
        intro he
        exact hnd2.1 (he ▸ List.mem_map_of_mem Prod.fst hkd)
      by_cases h0 : optLookup acc kd0.1 = none
      · rw [if_pos h0]
        refine ih _ _ hnd2.2 hkd ?_
        rw [optLookup_append_none habs]
        simp [optLookup, hne]
      · rw [if_neg h0]
        exact ih _ _ hnd2.2 hkd habs

/-- Schema keys are distinct in every registered descriptor. -/
theorem descriptor_schema_nodup (d : Descriptor) (hd : d ∈ allDescriptors) :
    (d.optionSchema.map Prod.fst).Nodup := by
  simp only [allDescriptors, List.mem_cons, List.not_mem_nil, or_false] at hd
  rcases hd with rfl | rfl | rfl | rfl | rfl <;> decide

/-- The shared `validateConfig` body accepts a config exactly when the name
is present, the type is one of the descriptor's names, and every required
topic role is present and non-empty. -/
theorem genValidateConfig_valid_iff (d : Descriptor) (cfg : DevConfig) :
    (genValidateConfig d cfg).1.valid = true ↔
      (nameFalsy cfg = false ∧ typeOk d cfg = true ∧
       ∀ role ∈ d.requiredTopics, topicMissing cfg role = false) := by
  cases hn : nameFalsy cfg <;> cases hty : typeOk d cfg <;>
    simp [genValidateConfig, hn, hty, validateTopics, List.isEmpty_iff,
      List.append_eq_nil, List.map_eq_nil_iff, List.filter_eq_nil_iff]

/-! ## Claim theorems -/

/-- C1: for every integer b in [0,255],
`matterToMqttBrightness(mqttToMatterBrightness(b))` is in [0,254] and
equals `min(b, 254)`; the mapping saturates — wire values 254 and 255 both
map to level 254 — rather than linearly rescaling 0-255 onto 0-254. -/
theorem brightness_roundtrip_saturates (b : Int) (h0 : 0 ≤ b) (h255 : b ≤ 255) :
    (0 ≤ matterToMqttBrightness (mqttToMatterBrightness b) ∧
     matterToMqttBrightness (mqttToMatterBrightness b) ≤ 254 ∧
     matterToMqttBrightness (mqttToMatterBrightness b) = min b 254) ∧
    mqttToMatterBrightness 254 = 254 ∧ mqttToMatterBrightness 255 = 254 := by
  simp only [matterToMqttBrightness, mqttToMatterBrightness]
  refine ⟨⟨?_, ?_, ?_⟩, by decide, by decide⟩ <;> omega

theorem brightness_roundtrip_saturates_witness :
    (0 ≤ matterToMqttBrightness (mqttToMatterBrightness 255) ∧
     matterToMqttBrightness (mqttToMatterBrightness 255) ≤ 254 ∧
     matterToMqttBrightness (mqttToMatterBrightness 255) = min 255 254) ∧
    mqttToMatterBrightness 254 = 254 ∧ mqttToMatterBrightness 255 = 254 :=
  brightness_roundtrip_saturates 255 (by decide) (by decide)

/-- C3 (counterexample): `"aabbcc"` is a valid 6-hex-digit color without
the configured prefix `"#"` attached; it parses successfully, but
re-encoding attaches the prefix, so the round trip is not the identity
even after case normalization. -/
theorem parseRgbHex_roundtrip_counterexample :
    validHex6 (jstr "aabbcc") ∧
    parseRgbHex (jstr "aabbcc") (some (jstr "#")) = some ⟨170, 187, 204⟩ ∧
    rgbToHex ⟨170, 187, 204⟩ (some (jstr "#")) = jstr "#aabbcc" ∧
    lowerStr (rgbToHex ⟨170, 187, 204⟩ (some (jstr "#"))) ≠
      lowerStr (jstr "aabbcc") := by decide

/-- C3 (amended): for every string h of the form "configured prefix
followed by exactly six hex digits" (the prefix being empty when absent),
`parseRgbHex(h, prefix)` succeeds, and `rgbToHex(parseRgbHex(h, prefix),
prefix)` equals h after case normalization; `parseRgbHex` returns the
invalid sentinel (null) exactly when, after stripping the prefix, the
remainder is not exactly 6 hex digits. -/
theorem parseRgbHex_roundtrip (pfx : Option JStr) :
    (∀ d : JStr, validHex6 d →
      ∃ rgb, parseRgbHex (pfx.getD [] ++ d) pfx = some rgb ∧
        lowerStr (rgbToHex rgb pfx) = lowerStr (pfx.getD [] ++ d)) ∧
    (∀ s : JStr, parseRgbHex s pfx = none ↔ ¬ validHex6 (stripPfx s pfx)) := by
  constructor
  · intro d hd
    obtain ⟨hlen, hall⟩ := hd
    rcases d with _ | ⟨c1, _ | ⟨c2, _ | ⟨c3, _ | ⟨c4, _ | ⟨c5, _ | ⟨c6, _ | ⟨c7, t⟩⟩⟩⟩⟩⟩⟩ <;>
      simp at hlen
    have h1 := hall c1 (by simp)
    have h2 := hall c2 (by simp)
    have h3 := hall c3 (by simp)
    have h4 := hall c4 (by simp)
    have h5 := hall c5 (by simp)
    have h6 := hall c6 (by simp)
    have e1 : toHexByte (hexVal c1 * 16 + hexVal c2) = [lowerChar c1, lowerChar c2] := by
      rw [toHexByte_pair _ _ (hexVal_lt _ h1) (hexVal_lt _ h2),
        hexChar_hexVal _ h1, hexChar_hexVal _ h2]
    have e2 : toHexByte (hexVal c3 * 16 + hexVal c4) = [lowerChar c3, lowerChar c4] := by
      rw [toHexByte_pair _ _ (hexVal_lt _ h3) (hexVal_lt _ h4),
        hexChar_hexVal _ h3, hexChar_hexVal _ h4]
    have e3 : toHexByte (hexVal c5 * 16 + hexVal c6) = [lowerChar c5, lowerChar c6] := by
      rw [toHexByte_pair _ _ (hexVal_lt _ h5) (hexVal_lt _ h6),
        hexChar_hexVal _ h5, hexChar_hexVal _ h6]
    refine ⟨⟨hexVal c1 * 16 + hexVal c2, hexVal c3 * 16 + hexVal c4,
        hexVal c5 * 16 + hexVal c6⟩, ?_, ?_⟩
    · rw [parseRgbHex, stripPfx_append]
      exact parseHex6_valid c1 c2 c3 c4 c5 c6 h1 h2 h3 h4 h5 h6
    · match pfx with
      | none => simp [rgbToHex, e1, e2, e3, lowerStr, lowerChar_idem]
      | some p =>
        by_cases hp : p = [] <;>
          simp [rgbToHex, hp, e1, e2, e3, lowerStr, lowerChar_idem]
  · intro s
    rw [parseRgbHex]
    exact parseHex6_none_iff _

/-- A configuration whose type name is absent from the registry. -/
def fooCfg : DevConfig := ⟨some "tv", some "FooDevice", [], []⟩

/-- C2 (counterexample): for the unknown type `FooDevice`,
`DeviceRegistry.validateConfig` fails with the single error
`Unknown device type: FooDevice`, which does not include any of the
registered type names — so its error output does not contain the list of
valid types the claim promises. -/
theorem registry_validate_unknown_counterexample :
    regLookup builtRegistry "FooDevice" = none ∧
    (registryValidateConfig builtRegistry fooCfg).1.valid = false ∧
    (registryValidateConfig builtRegistry fooCfg).1.errors =
      ["Unknown device type: FooDevice"] ∧
    (∀ n ∈ getRegisteredTypes builtRegistry,
      ∀ e ∈ (registryValidateConfig builtRegistry fooCfg).1.errors,
        containsStr n.data e.data = false) := by decide

/-- C2 (amended): for every config whose type name is absent from the
registry, both `createDevice` and `validateConfig` fail; `createDevice`'s
error names the unknown type and includes the list of registered type
names, while `validateConfig` returns the single error naming the unknown
type only, without the list of valid types. -/
theorem registry_unknown_type_rejection (cfg : DevConfig) (t : String)
    (ht : cfg.type = some t) (habs : regLookup builtRegistry t = none) :
    ((registryValidateConfig builtRegistry cfg).1.valid = false ∧
     (registryValidateConfig builtRegistry cfg).1.errors =
       ["Unknown device type: " ++ t]) ∧
    registryCreateDevice builtRegistry cfg =
      .error ("Unknown device type: " ++ t ++ ". Available types: " ++
        String.intercalate ", " (getRegisteredTypes builtRegistry)) ∧
    (∀ n ∈ getRegisteredTypes builtRegistry,
      containsStr n.data
        ("Unknown device type: " ++ t ++ ". Available types: " ++
          String.intercalate ", " (getRegisteredTypes builtRegistry)).data = true) := by
  refine ⟨⟨?_, ?_⟩, ?_, ?_⟩
  · simp [registryValidateConfig, ht, habs]
  · simp [registryValidateConfig, typeShow, ht, habs]
  · simp [registryCreateDevice, typeShow, ht, habs]
  · intro n hn
    simp only [String.data_append]
    simp only [getRegisteredTypes, builtRegistry, List.map_cons, List.map_nil,
      List.mem_cons, List.not_mem_nil, or_false] at hn
    rcases hn with rfl | rfl | rfl | rfl | rfl | rfl <;>
      exact containsStr_append_right _ (by decide)

theorem registry_unknown_type_rejection_witness :
    ((registryValidateConfig builtRegistry fooCfg).1.valid = false ∧
     (registryValidateConfig builtRegistry fooCfg).1.errors =
       ["Unknown device type: " ++ "FooDevice"]) ∧
    registryCreateDevice builtRegistry fooCfg =
      .error ("Unknown device type: " ++ "FooDevice" ++ ". Available types: " ++
        String.intercalate ", " (getRegisteredTypes builtRegistry)) ∧
    (∀ n ∈ getRegisteredTypes builtRegistry,
      containsStr n.data
        ("Unknown device type: " ++ "FooDevice" ++ ". Available types: " ++
          String.intercalate ", " (getRegisteredTypes builtRegistry)).data = true) :=
  registry_unknown_type_rejection fooCfg "FooDevice" rfl (by decide)

/-- C7: for every registered descriptor, validating a config missing a
required topic role yields `valid = false` with an error naming that exact
role; validating one with all required topics and no options yields
`valid = true` with every schema default filled in; and violations are
accumulated — a config missing both the name and a required topic reports
both errors in one call. -/
theorem descriptor_validate_schema (d : Descriptor) (hd : d ∈ allDescriptors)
    (cfg : DevConfig) :
    (∀ role ∈ d.requiredTopics, topicMissing cfg role = true →
      ((genValidateConfig d cfg).1.valid = false ∧
       ("[" ++ displayName cfg ++ "] Missing required topic: " ++ role) ∈
         (genValidateConfig d cfg).1.errors)) ∧
    (nameFalsy cfg = false → typeOk d cfg = true → cfg.options = [] →
      (∀ role ∈ d.requiredTopics, topicMissing cfg role = false) →
      ((genValidateConfig d cfg).1.valid = true ∧
       ∀ kd ∈ d.optionSchema,
         optLookup (genValidateConfig d cfg).2.options kd.1 =
           some kd.2.default)) ∧
    (nameFalsy cfg = true →
      ∀ role ∈ d.requiredTopics, topicMissing cfg role = true →
        ("Missing device name" ∈ (genValidateConfig d cfg).1.errors ∧
         ("[" ++ displayName cfg ++ "] Missing required topic: " ++ role) ∈
           (genValidateConfig d cfg).1.errors)) := by
  have htopicmem : ∀ role ∈ d.requiredTopics, topicMissing cfg role = true →
      ("[" ++ displayName cfg ++ "] Missing required topic: " ++ role) ∈
        (genValidateConfig d cfg).1.errors := by
    intro role hrole hmiss
    simp only [genValidateConfig, List.mem_append, validateTopics, List.mem_map,
      List.mem_filter]
    exact Or.inr ⟨role, ⟨hrole, hmiss⟩, rfl⟩
  refine ⟨?_, ?_, ?_⟩
  · intro role hrole hmiss
    refine ⟨?_, htopicmem role hrole hmiss⟩
    cases hv : (genValidateConfig d cfg).1.valid
    · rfl
    · have hfalse := ((genValidateConfig_valid_iff d cfg).mp hv).2.2 role hrole
      rw [hmiss] at hfalse
      exact absurd hfalse (by decide)
  · intro h1 h2 hopts hall
    refine ⟨(genValidateConfig_valid_iff d cfg).mpr ⟨h1, h2, hall⟩, ?_⟩
    intro kd hkd
    have : (genValidateConfig d cfg).2.options =
        applyOptionDefaults cfg.options d.optionSchema := by
      simp [genValidateConfig]
    rw [this, hopts]
    exact applyOptionDefaults_default d.optionSchema []
      kd (descriptor_schema_nodup d hd) hkd rfl
  · intro hname role hrole hmiss
    refine ⟨?_, htopicmem role hrole hmiss⟩
    simp [genValidateConfig, hname]

theorem descriptor_validate_schema_witness :
    (∀ role ∈ tvMeta.requiredTopics,
      topicMissing ⟨none, some "TVDevice", [("getOnline", "tele/tv/LWT")], []⟩ role = true →
      ((genValidateConfig tvMeta
          ⟨none, some "TVDevice", [("getOnline", "tele/tv/LWT")], []⟩).1.valid = false ∧
       ("[" ++ displayName ⟨none, some "TVDevice", [("getOnline", "tele/tv/LWT")], []⟩ ++
          "] Missing required topic: " ++ role) ∈
         (genValidateConfig tvMeta
           ⟨none, some "TVDevice", [("getOnline", "tele/tv/LWT")], []⟩).1.errors)) ∧
    (nameFalsy ⟨none, some "TVDevice", [("getOnline", "tele/tv/LWT")], []⟩ = false →
      typeOk tvMeta ⟨none, some "TVDevice", [("getOnline", "tele/tv/LWT")], []⟩ = true →
      DevConfig.options ⟨none, some "TVDevice", [("getOnline", "tele/tv/LWT")], []⟩ = [] →
      (∀ role ∈ tvMeta.requiredTopics,
        topicMissing ⟨none, some "TVDevice", [("getOnline", "tele/tv/LWT")], []⟩ role = false) →
      ((genValidateConfig tvMeta
          ⟨none, some "TVDevice", [("getOnline", "tele/tv/LWT")], []⟩).1.valid = true ∧
       ∀ kd ∈ tvMeta.optionSchema,
         optLookup (genValidateConfig tvMeta
             ⟨none, some "TVDevice", [("getOnline", "tele/tv/LWT")], []⟩).2.options kd.1 =
           some kd.2.default)) ∧
    (nameFalsy ⟨none, some "TVDevice", [("getOnline", "tele/tv/LWT")], []⟩ = true →
      ∀ role ∈ tvMeta.requiredTopics,
        topicMissing ⟨none, some "TVDevice", [("getOnline", "tele/tv/LWT")], []⟩ role = true →
        ("Missing device name" ∈
           (genValidateConfig tvMeta
             ⟨none, some "TVDevice", [("getOnline", "tele/tv/LWT")], []⟩).1.errors ∧
         ("[" ++ displayName ⟨none, some "TVDevice", [("getOnline", "tele/tv/LWT")], []⟩ ++
            "] Missing required topic: " ++ role) ∈
           (genValidateConfig tvMeta
             ⟨none, some "TVDevice", [("getOnline", "tele/tv/LWT")], []⟩).1.errors)) :=
  descriptor_validate_schema tvMeta (by decide)
    ⟨none, some "TVDevice", [("getOnline", "tele/tv/LWT")], []⟩

/-- A config for the on/off descriptor whose present `onValue` option is a
boolean, contradicting the schema's declared `string` type. -/
def wrongTypedOptionCfg : DevConfig :=
  ⟨some "lamp", some "OnOffLightDevice",
   [("getOnline", "tele/lamp/LWT"), ("getOn", "stat/lamp/POWER"),
    ("setOn", "cmnd/lamp/POWER")],
   [("onValue", .bool true)]⟩

/-- C8 (counterexample): `OnOffDevice.metadata.validateConfig` accepts a
config whose present `onValue` option is a boolean although the schema
declares it a string — present option values are not type-checked, so no
validation error is produced. -/
theorem option_type_check_counterexample :
    ("onValue", (⟨.string, .str "ON"⟩ : OptionDef)) ∈ onOffMeta.optionSchema ∧
    optLookup wrongTypedOptionCfg.options "onValue" = some (.bool true) ∧
    (OptValue.bool true).typeOf ≠ OptType.string ∧
    (genValidateConfig onOffMeta wrongTypedOptionCfg).1 = ⟨true, []⟩ := by decide

/-- C8 (amended): every registered descriptor's validateConfig checks that
the name is present, the type matches exactly this descriptor's type
name(s), and every required topic role is present and non-empty; option
values are not checked against the schema's declared types — the
validation outcome is independent of the configured options. -/
theorem descriptor_validate_checks (d : Descriptor) (_hd : d ∈ allDescriptors)
    (cfg : DevConfig) :
    ((genValidateConfig d cfg).1.valid = true ↔
      (nameFalsy cfg = false ∧ typeOk d cfg = true ∧
       ∀ role ∈ d.requiredTopics, topicMissing cfg role = false)) ∧
    (∀ opts2 : List (String × OptValue),
      (genValidateConfig d { cfg with options := opts2 }).1 =
        (genValidateConfig d cfg).1) := by
  refine ⟨genValidateConfig_valid_iff d cfg, ?_⟩
  intro opts2
  simp [genValidateConfig, nameFalsy, displayName, typeOk, typeShow,
    validateTopics, topicMissing]

theorem descriptor_validate_checks_witness :
    ((genValidateConfig onOffMeta wrongTypedOptionCfg).1.valid = true ↔
      (nameFalsy wrongTypedOptionCfg = false ∧
       typeOk onOffMeta wrongTypedOptionCfg = true ∧
       ∀ role ∈ onOffMeta.requiredTopics,
         topicMissing wrongTypedOptionCfg role = false)) ∧
    (∀ opts2 : List (String × OptValue),
      (genValidateConfig onOffMeta { wrongTypedOptionCfg with options := opts2 }).1 =
        (genValidateConfig onOffMeta wrongTypedOptionCfg).1) :=
  descriptor_validate_checks onOffMeta (by decide) wrongTypedOptionCfg

/-- C9: every registered descriptor's validateConfig overwrites the passed
config's `options` with the default-completed mapping unconditionally (the
statement assumes nothing about the validation outcome, so it also holds
when `valid = false`): afterwards every key of the option schema is bound —
to its schema default when the caller omitted it — and option values the
caller supplied are never overwritten by defaults. -/
theorem validate_applies_defaults (d : Descriptor) (hd : d ∈ allDescriptors)
    (cfg : DevConfig) :
    (∀ k v, optLookup cfg.options k = some v →
      optLookup (genValidateConfig d cfg).2.options k = some v) ∧
    (∀ kd ∈ d.optionSchema, ∃ v,
      optLookup (genValidateConfig d cfg).2.options kd.1 = some v) ∧
    (∀ kd ∈ d.optionSchema, optLookup cfg.options kd.1 = none →
      optLookup (genValidateConfig d cfg).2.options kd.1 = some kd.2.default) := by
  have hopts : (genValidateConfig d cfg).2.options =
      applyOptionDefaults cfg.options d.optionSchema := by
    simp [genValidateConfig]
  rw [hopts]
  refine ⟨?_, ?_, ?_⟩
  · intro k v h
    exact applyOptionDefaults_preserve d.optionSchema cfg.options k v h
  · intro kd hkd
    exact applyOptionDefaults_populates d.optionSchema cfg.options kd hkd
  · intro kd hkd habs
    exact applyOptionDefaults_default d.optionSchema cfg.options kd
      (descriptor_schema_nodup d hd) hkd habs

theorem validate_applies_defaults_witness :
    (∀ k v, optLookup wrongTypedOptionCfg.options k = some v →
      optLookup (genValidateConfig colorMeta wrongTypedOptionCfg).2.options k = some v) ∧
    (∀ kd ∈ colorMeta.optionSchema, ∃ v,
      optLookup (genValidateConfig colorMeta wrongTypedOptionCfg).2.options kd.1 = some v) ∧
    (∀ kd ∈ colorMeta.optionSchema,
      optLookup wrongTypedOptionCfg.options kd.1 = none →
      optLookup (genValidateConfig colorMeta wrongTypedOptionCfg).2.options kd.1 =
        some kd.2.default) :=
  validate_applies_defaults colorMeta (by decide) wrongTypedOptionCfg

theorem parseRgbHex_roundtrip_witness :
    ∃ rgb,
      parseRgbHex ((some (jstr "#")).getD [] ++ jstr "A1b2c3") (some (jstr "#")) =
        some rgb ∧
      lowerStr (rgbToHex rgb (some (jstr "#"))) =
        lowerStr ((some (jstr "#")).getD [] ++ jstr "A1b2c3") :=
  (parseRgbHex_roundtrip (some (jstr "#"))).1 (jstr "A1b2c3") (by decide)

/-- C6: with default options, the TV `getState` payload
`{"POWER":"ON"}` sets `onOff` to true; `{"POWER":"OFF","INPUT":"HDMI3"}`
sets it to false, ignoring the unrecognized `INPUT` field without error;
and a payload that is not valid JSON logs a parse error, performs no graph
mutation and leaves `onOff` unchanged. -/
theorem tv_state_update_behavior :
    tvHandleStateUpdate defaultTVOptions (jstr "\x7b\"POWER\":\"ON\"\x7d") =
      [.setOnOff true] ∧
    tvHandleStateUpdate defaultTVOptions
        (jstr "\x7b\"POWER\":\"OFF\",\"INPUT\":\"HDMI3\"\x7d") =
      [.setOnOff false] ∧
    tvHandleStateUpdate defaultTVOptions (jstr "not-json") = [.logParseError] ∧
    (∀ onOff : Bool,
      applyTVEffects (tvHandleStateUpdate defaultTVOptions (jstr "not-json"))
        onOff = onOff) := by decide

/-- C4: no inbound MQTT message a color device handles ever produces a
`set` call against the color cluster — not on the RGB topic nor on any
other; on the `getRGB` topic a payload that parses as a valid color only
logs and updates the instance's cached hue and saturation. -/
theorem color_rgb_inbound_never_sets_color (topics : ColorTopics)
    (opts : ColorOptions) (cache : ColorCache) (topic : String) (message : JStr) :
    (∀ h s, InEffect.setColor h s ∉
      (colorHandleMqttMessage topics opts cache topic message).2) ∧
    (topic = topics.getRGB → topic ≠ topics.getOnline → topic ≠ topics.getOn →
      topic ≠ topics.getBrightness →
      ∀ hsv, hexToHsv message (rgbPfx opts) = some hsv →
        colorHandleMqttMessage topics opts cache topic message =
          (⟨hsv.hue, hsv.saturation⟩, [.logInfo])) := by
  constructor
  · intro h s
    unfold colorHandleMqttMessage
    split_ifs <;>
      first
        | simp
        | (cases parseBrightness message <;> simp)
        | (cases hexToHsv message (rgbPfx opts) <;> simp)
  · intro hrgb h1 h2 h3 hsv hhsv
    unfold colorHandleMqttMessage
    rw [if_neg h1, if_neg h2, if_neg h3, if_pos hrgb, hhsv]

/-- Concrete color-device configuration used by the witnesses. -/
def sampleColorTopics : ColorTopics :=
  ⟨"tele/rgb/LWT", "stat/rgb/POWER", "stat/rgb/BRI", "stat/rgb/RGB"⟩

/-- Concrete color-device options used by the witnesses. -/
def sampleColorOptions : ColorOptions :=
  ⟨jstr "ON", jstr "OFF", jstr "Online", jstr "Offline", false, jstr "#"⟩

theorem color_rgb_inbound_never_sets_color_witness :
    (∀ h s, InEffect.setColor h s ∉
      (colorHandleMqttMessage sampleColorTopics sampleColorOptions ⟨0, 0⟩
        "stat/rgb/RGB" (jstr "ff0000")).2) ∧
    ("stat/rgb/RGB" = sampleColorTopics.getRGB →
      "stat/rgb/RGB" ≠ sampleColorTopics.getOnline →
      "stat/rgb/RGB" ≠ sampleColorTopics.getOn →
      "stat/rgb/RGB" ≠ sampleColorTopics.getBrightness →
      ∀ hsv, hexToHsv (jstr "ff0000") (rgbPfx sampleColorOptions) = some hsv →
        colorHandleMqttMessage sampleColorTopics sampleColorOptions ⟨0, 0⟩
            "stat/rgb/RGB" (jstr "ff0000") =
          (⟨hsv.hue, hsv.saturation⟩, [.logInfo])) :=
  color_rgb_inbound_never_sets_color sampleColorTopics sampleColorOptions
    ⟨0, 0⟩ "stat/rgb/RGB" (jstr "ff0000")

/-- C10: a hue (resp. saturation) change event delivering the cached value
is a no-op — no cache update and no debounced RGB publish scheduled; a
differing value updates the cache and schedules the debounced publish. -/
theorem hue_sat_change_guard (opts : ColorOptions) (st : CDev) (t v : Nat)
    (ht : st.timer = none) :
    (v = st.hue → cdStep opts (t, .hueChanged v) st = st) ∧
    (v ≠ st.hue → cdStep opts (t, .hueChanged v) st =
      { st with hue := v, timer := some (t + 50) }) ∧
    (v = st.sat → cdStep opts (t, .satChanged v) st = st) ∧
    (v ≠ st.sat → cdStep opts (t, .satChanged v) st =
      { st with sat := v, timer := some (t + 50) }) := by
  refine ⟨?_, ?_, ?_, ?_⟩ <;> intro hv <;>
    simp [cdStep, fireIfDue, ht, debouncedPublishRGB, hv]

theorem hue_sat_change_guard_witness :
    (7 = (CDev.mk 7 3 254 none []).hue →
      cdStep sampleColorOptions (0, .hueChanged 7) ⟨7, 3, 254, none, []⟩ =
        ⟨7, 3, 254, none, []⟩) ∧
    (7 ≠ (CDev.mk 7 3 254 none []).hue →
      cdStep sampleColorOptions (0, .hueChanged 7) ⟨7, 3, 254, none, []⟩ =
        { CDev.mk 7 3 254 none [] with hue := 7, timer := some (0 + 50) }) ∧
    (7 = (CDev.mk 7 3 254 none []).sat →
      cdStep sampleColorOptions (0, .satChanged 7) ⟨7, 3, 254, none, []⟩ =
        ⟨7, 3, 254, none, []⟩) ∧
    (7 ≠ (CDev.mk 7 3 254 none []).sat →
      cdStep sampleColorOptions (0, .satChanged 7) ⟨7, 3, 254, none, []⟩ =
        { CDev.mk 7 3 254 none [] with sat := 7, timer := some (0 + 50) }) :=
  hue_sat_change_guard sampleColorOptions ⟨7, 3, 254, none, []⟩ 0 7 rfl

/-- C5: starting from a quiescent color device, a hue change and a
saturation change less than 50 time-units apart produce exactly one
outbound RGB publish carrying the latest hue and saturation; changes
farther apart than the window produce two separate publishes; and the
level encoded into the publish is the one read from the graph node's state
when the timer fires, not the one at scheduling time — a level change
arriving during the window is reflected in the eventual RGB publish. -/
theorem debounce_coalescing (opts : ColorOptions) (st0 : CDev)
    (t1 t2 t3 h s L : Nat) (htimer : st0.timer = none) (hout : st0.out = [])
    (hh : h ≠ st0.hue) (hs : s ≠ st0.sat) :
    (t1 ≤ t2 → t2 < t1 + 50 →
      rgbOut (runToQuiescence opts [(t1, .hueChanged h), (t2, .satChanged s)] st0) =
        [.rgb (hsvToHex ⟨h, s, st0.level⟩ (rgbPfx opts))]) ∧
    (t1 + 50 < t2 →
      rgbOut (runToQuiescence opts [(t1, .hueChanged h), (t2, .satChanged s)] st0) =
        [.rgb (hsvToHex ⟨h, st0.sat, st0.level⟩ (rgbPfx opts)),
         .rgb (hsvToHex ⟨h, s, st0.level⟩ (rgbPfx opts))]) ∧
    (t1 ≤ t2 → t2 ≤ t3 → t3 < t1 + 50 →
      rgbOut (runToQuiescence opts
          [(t1, .hueChanged h), (t2, .levelChanged L), (t3, .satChanged s)] st0) =
        [.rgb (hsvToHex ⟨h, s, L⟩ (rgbPfx opts))]) := by
  refine ⟨?_, ?_, ?_⟩
  · intro h12 h2w
    have hc : ¬ (t1 + 50 ≤ t2) := by omega
    simp [runToQuiescence, runEvents, cdStep, fireIfDue, debouncedPublishRGB,
      publishRGB, flushTimer, rgbOut, OutMsg.isRgb, htimer, hout, hh, hs, hc]
  · intro h2w
    have hc : t1 + 50 ≤ t2 := by omega
    simp [runToQuiescence, runEvents, cdStep, fireIfDue, debouncedPublishRGB,
      publishRGB, flushTimer, rgbOut, OutMsg.isRgb, htimer, hout, hh, hs, hc]
  · intro h12 h23 h3w
    have hc1 : ¬ (t1 + 50 ≤ t2) := by omega
    have hc2 : ¬ (t2 + 50 ≤ t3) := by omega
    simp [runToQuiescence, runEvents, cdStep, fireIfDue, debouncedPublishRGB,
      publishRGB, flushTimer, rgbOut, OutMsg.isRgb, htimer, hout, hh, hs, hc1, hc2]

theorem debounce_coalescing_witness :
    (0 ≤ 20 → 20 < 0 + 50 →
      rgbOut (runToQuiescence sampleColorOptions
          [(0, .hueChanged 10), (20, .satChanged 30)] ⟨0, 0, 254, none, []⟩) =
        [.rgb (hsvToHex ⟨10, 30, (CDev.mk 0 0 254 none []).level⟩
          (rgbPfx sampleColorOptions))]) ∧
    (0 + 50 < 20 →
      rgbOut (runToQuiescence sampleColorOptions
          [(0, .hueChanged 10), (20, .satChanged 30)] ⟨0, 0, 254, none, []⟩) =
        [.rgb (hsvToHex ⟨10, (CDev.mk 0 0 254 none []).sat,
            (CDev.mk 0 0 254 none []).level⟩ (rgbPfx sampleColorOptions)),
         .rgb (hsvToHex ⟨10, 30, (CDev.mk 0 0 254 none []).level⟩
           (rgbPfx sampleColorOptions))]) ∧
    (0 ≤ 20 → 20 ≤ 30 → 30 < 0 + 50 →
      rgbOut (runToQuiescence sampleColorOptions
          [(0, .hueChanged 10), (20, .levelChanged 100), (30, .satChanged 30)]
          ⟨0, 0, 254, none, []⟩) =
        [.rgb (hsvToHex ⟨10, 30, 100⟩ (rgbPfx sampleColorOptions))]) :=
  debounce_coalescing sampleColorOptions ⟨0, 0, 254, none, []⟩ 0 20 30 10 30 100
    rfl rfl (by decide) (by decide)

end IH8
